import Mathlib

/-!
Shallow embedding of `src/robustCountdown.js` (the `RobustCountdown` class).

Timestamps are milliseconds since the epoch, modelled as `Int` (the source
uses `Date.getTime()` values and integer millisecond arithmetic throughout).
Progress ratios are modelled as `ℚ` (the source computes real-valued ratios
via `/`; all inputs in scope are integers, so rationals are exact).

The host environment's date facilities (`new Date(string)`, `Date.UTC(...)`,
`new Date(y, m, ...)`, `new Date().getFullYear()`) are parameters of the
embedding, collected in `Env`: the engine only forwards its configured fields
to them and uses the returned timestamp.

Callbacks (`on.update`, `on.finish`) are modelled as presence flags plus an
emitted event trace: each operation returns the list of callback invocations
it performs, in order, carrying the arguments the source passes
(`progressObject`, `timeLeft`, `individualTimeData`).  DOM rendering is
outside every claim and is not part of the trace.
-/

namespace RobustCountdown

/-- The `timer` option group (source lines 64–67). -/
structure TimerOpts where
  duration : Option Int
  disableOnPause : Bool
deriving DecidableEq

/-- The `on` callback group (source lines 77–80); each field records whether
a callback function is configured (`typeof ... === "function"`). -/
structure Callbacks where
  update : Bool
  finish : Bool
deriving DecidableEq

/-- The merged configuration object `this.options` (source lines 50–95).
The four render-target selectors are omitted: they only feed DOM rendering,
which no claim touches. -/
structure Options where
  year : Int
  month : Int
  day : Int
  hours : Int
  minutes : Int
  seconds : Int
  enableUTC : Bool
  targetTime : Option String
  timer : TimerOpts
  zeroPad : Bool
  onCb : Callbacks
deriving DecidableEq

/-- Mutable engine state (source lines 98–103) plus the current options.
`intervalId` holds the scheduler registration: `some p` is an active
repeating registration with period `p` milliseconds, `none` is released. -/
structure CState where
  intervalId : Option Int
  isPaused : Bool
  pauseStart : Int
  targetTimestamp : Int
  startTimestamp : Int
  totalDuration : Int
  options : Options
deriving DecidableEq

/-- Host date facilities used by the engine. `parseDate` is
`new Date(string).getTime()`; `dateLocal`/`dateUTC` build a timestamp from
granular fields (year, 0-indexed month, day, hour, minute, second);
`currentYear` is `new Date().getFullYear()`. -/
structure Env where
  parseDate : String → Int
  dateLocal : Int → Int → Int → Int → Int → Int → Int
  dateUTC : Int → Int → Int → Int → Int → Int → Int
  currentYear : Int

/-- JavaScript `x || d` on a number field: `0` is falsy. -/
def jsOr (x d : Int) : Int := if x = 0 then d else x

/-- JavaScript truthiness of `opts.timer.duration`: `null` and `0` are falsy,
every other number is truthy. -/
def durationTruthy : Option Int → Bool
  | none => false
  | some d => d ≠ 0

/-- JavaScript truthiness of `opts.targetTime`: `null` and `""` are falsy. -/
def targetTimeTruthy : Option String → Bool
  | none => false
  | some str => str ≠ ""

/-- `calculateTarget()` (source lines 114–147): records
`startTimestamp = now`, then applies exactly one rule — relative duration
first, else the legacy `targetTime` string, else the granular fields. -/
def calculateTarget (env : Env) (s : CState) (now : Int) : CState :=
  let s1 := { s with startTimestamp := now }
  let opts := s1.options
  if durationTruthy opts.timer.duration then
    { s1 with targetTimestamp := now + opts.timer.duration.getD 0,
              totalDuration := opts.timer.duration.getD 0 }
  else
    let targetTs :=
      if targetTimeTruthy opts.targetTime then env.parseDate (opts.targetTime.getD "")
      else
        let m := jsOr opts.month 1 - 1
        let d := jsOr opts.day 1
        let h := jsOr opts.hours 0
        let mi := jsOr opts.minutes 0
        let sec := jsOr opts.seconds 0
        if opts.enableUTC then env.dateUTC opts.year m d h mi sec
        else env.dateLocal opts.year m d h mi sec
    { s1 with targetTimestamp := targetTs,
              totalDuration := max 0 (targetTs - now) }

/-- One day, hour and minute in milliseconds (source lines 160–163 write
these as `1000 * 60 * 60 * 24` etc.). -/
def dayMs : Int := 1000 * 60 * 60 * 24

/-- One hour in milliseconds. -/
def hourMs : Int := 1000 * 60 * 60

/-- One minute in milliseconds. -/
def minuteMs : Int := 1000 * 60

/-- `timeLeft = Math.max(0, targetTimestamp - now)` (source line 157). -/
def timeLeftOf (s : CState) (now : Int) : Int :=
  max 0 (s.targetTimestamp - now)

/-- The `individualTimeData` values of a tick (source lines 160–163, 200). -/
structure UnitValues where
  days : Int
  hours : Int
  minutes : Int
  seconds : Int
deriving DecidableEq

/-- The per-tick days/hours/minutes/seconds decomposition
(source lines 160–163).  `timeLeft` is non-negative there, so JavaScript's
`Math.floor` of the quotient agrees with integer division. -/
def decompose (timeLeft : Int) : UnitValues :=
  { days := timeLeft / dayMs,
    hours := timeLeft % dayMs / hourMs,
    minutes := timeLeft % hourMs / minuteMs,
    seconds := timeLeft % minuteMs / 1000 }

/-- `globalProgress` (source lines 166–172). -/
def globalProgress (s : CState) (now : Int) : ℚ :=
  if s.totalDuration > 0 then
    min 1 (max 0 (((now - s.startTimestamp : Int) : ℚ) / ((s.totalDuration : Int) : ℚ)))
  else 1

/-- The `progressObject` handed to `on.update` (source lines 176–182). -/
structure ProgressObj where
  total : ℚ
  days : ℚ
  hours : ℚ
  minutes : ℚ
  seconds : ℚ
deriving DecidableEq

/-- Builds the tick's `progressObject` (source lines 176–182). -/
def progressObject (s : CState) (now : Int) : ProgressObj :=
  let u := decompose (timeLeftOf s now)
  { total := globalProgress s now,
    days := if s.totalDuration > 0
      then (u.days : ℚ) / (((s.totalDuration : Int) : ℚ) / ((dayMs : Int) : ℚ)) else 0,
    hours := (u.hours : ℚ) / 24,
    minutes := (u.minutes : ℚ) / 60,
    seconds := (u.seconds : ℚ) / 60 }

/-- A callback invocation performed during an operation. -/
inductive Event where
  | update (p : ProgressObj) (timeLeft : Int) (u : UnitValues)
  | finish
deriving DecidableEq

/-- `stop()` (source lines 241–247): releases the scheduler registration and
marks the engine paused. -/
def stop (s : CState) : CState :=
  { s with intervalId := none, isPaused := true }

/-- `tick()` (source lines 153–212): no-op while paused; otherwise derives
`timeLeft`, units and progress, fires `on.update` if configured, and on
`timeLeft <= 0` calls `stop()` and fires `on.finish` if configured. -/
def tick (s : CState) (now : Int) : CState × List Event :=
  if s.isPaused then (s, [])
  else
    let timeLeft := timeLeftOf s now
    let u := decompose timeLeft
    let p := progressObject s now
    let evs := if s.options.onCb.update then [Event.update p timeLeft u] else []
    if timeLeft ≤ 0 then
      (stop s, evs ++ if s.options.onCb.finish then [Event.finish] else [])
    else (s, evs)

/-- `start()` (source lines 216–221): clears the paused flag, runs one tick
synchronously, then (re)registers the 1000 ms repeating scheduler. -/
def start (s : CState) (now : Int) : CState × List Event :=
  let s1 := { s with isPaused := false }
  let r := tick s1 now
  ({ r.1 with intervalId := some 1000 }, r.2)

/-- `pause()` (source lines 223–226). -/
def pause (s : CState) (now : Int) : CState :=
  { s with isPaused := true, pauseStart := now }

/-- `resume()` (source lines 228–239): no-op when not paused; for a truthy
relative duration with `disableOnPause`, shifts `targetTimestamp` and
`startTimestamp` forward by the elapsed pause duration; then `start()`. -/
def resume (s : CState) (now : Int) : CState × List Event :=
  if s.isPaused = false then (s, [])
  else
    let s1 :=
      if durationTruthy s.options.timer.duration && s.options.timer.disableOnPause then
        let pauseDuration := now - s.pauseStart
        { s with targetTimestamp := s.targetTimestamp + pauseDuration,
                 startTimestamp := s.startTimestamp + pauseDuration }
      else s
    start s1 now

/-- `restart()` (source lines 249–253): `stop()`, `calculateTarget()`,
`start()`. -/
def restart (env : Env) (s : CState) (now : Int) : CState × List Event :=
  start (calculateTarget env (stop s) now) now

/-- A partial `timer` group in an options object supplied by the caller:
`none` means the key is absent (so the existing value survives the
spread). For `duration`, `some none` is an explicit `duration: null`. -/
structure PartialTimerOpts where
  duration : Option (Option Int) := none
  disableOnPause : Option Bool := none
deriving DecidableEq

/-- A partial `on` group supplied by the caller. -/
structure PartialCallbacks where
  update : Option Bool := none
  finish : Option Bool := none
deriving DecidableEq

/-- A caller-supplied (partial) options object, as passed to the constructor
or to `update()`; absent keys are `none`. -/
structure PartialOptions where
  year : Option Int := none
  month : Option Int := none
  day : Option Int := none
  hours : Option Int := none
  minutes : Option Int := none
  seconds : Option Int := none
  enableUTC : Option Bool := none
  targetTime : Option (Option String) := none
  timer : Option PartialTimerOpts := none
  zeroPad : Option Bool := none
  onCb : Option PartialCallbacks := none
deriving DecidableEq

/-- `{...base, ...(p || {})}` on the `timer` group. -/
def mergeTimer (base : TimerOpts) (p : PartialTimerOpts) : TimerOpts :=
  { duration := p.duration.getD base.duration,
    disableOnPause := p.disableOnPause.getD base.disableOnPause }

/-- `{...base, ...(p || {})}` on the `on` group. -/
def mergeCallbacks (base : Callbacks) (p : PartialCallbacks) : Callbacks :=
  { update := p.update.getD base.update,
    finish := p.finish.getD base.finish }

/-- The deep merge used by both the constructor (source lines 84–95) and
`update()` (source lines 256–267): top-level fields of `p` override `base`;
the `timer` and `on` groups are merged field-by-field. -/
def mergeOptions (base : Options) (p : PartialOptions) : Options :=
  { year := p.year.getD base.year,
    month := p.month.getD base.month,
    day := p.day.getD base.day,
    hours := p.hours.getD base.hours,
    minutes := p.minutes.getD base.minutes,
    seconds := p.seconds.getD base.seconds,
    enableUTC := p.enableUTC.getD base.enableUTC,
    targetTime := p.targetTime.getD base.targetTime,
    timer := mergeTimer base.timer (p.timer.getD {}),
    zeroPad := p.zeroPad.getD base.zeroPad,
    onCb := mergeCallbacks base.onCb (p.onCb.getD {}) }

/-- `update()` (source lines 255–269): merge the new options over the
current ones, then `restart()`. -/
def update (env : Env) (s : CState) (newOptions : PartialOptions) (now : Int) :
    CState × List Event :=
  restart env { s with options := mergeOptions s.options newOptions } now

/-- The `defaults` object of the constructor (source lines 50–81). -/
def defaults (env : Env) : Options :=
  { year := env.currentYear,
    month := 1, day := 1, hours := 0, minutes := 0, seconds := 0,
    enableUTC := false,
    targetTime := none,
    timer := { duration := none, disableOnPause := true },
    zeroPad := true,
    onCb := { update := false, finish := false } }

/-- Outcome of running the constructor (source lines 40–107).
`errorReported` records the `console.error` on the zero-elements guard;
`inst` is `none` when the constructor returned early at that guard (options,
state, target and scheduler are then never set up), and otherwise holds the
initialized state together with the callback events of the initial
synchronous tick. -/
structure BuildResult where
  errorReported : Bool
  inst : Option (CState × List Event)
deriving DecidableEq

/-- The constructor (source lines 40–107): resolve elements; if none, report
and return early; else merge options over defaults, zero the state, then
`init()` = `calculateTarget()` + `start()`. -/
def construct (env : Env) (elementsCount : Nat) (opts : PartialOptions) (now : Int) :
    BuildResult :=
  if elementsCount = 0 then { errorReported := true, inst := none }
  else
    let merged := mergeOptions (defaults env) opts
    let s0 : CState :=
      { intervalId := none, isPaused := false, pauseStart := 0,
        targetTimestamp := 0, startTimestamp := 0, totalDuration := 0,
        options := merged }
    { errorReported := false, inst := some (start (calculateTarget env s0 now) now) }

/-- One public operation on a live instance, tagged with the wall-clock
instant at which it runs. -/
inductive Op where
  | tickOp (now : Int)
  | pauseOp (now : Int)
  | resumeOp (now : Int)
  | stopOp
  | restartOp (now : Int)
  | updateOp (p : PartialOptions) (now : Int)
deriving DecidableEq

/-- State effect of one operation. -/
def applyOp (env : Env) (s : CState) : Op → CState
  | .tickOp n => (tick s n).1
  | .pauseOp n => pause s n
  | .resumeOp n => (resume s n).1
  | .stopOp => stop s
  | .restartOp n => (restart env s n).1
  | .updateOp p n => (update env s p n).1

/-- Runs a sequence of operations left to right. -/
def run (env : Env) (s : CState) : List Op → CState
  | [] => s
  | op :: ops => run env (applyOp env s op) ops

/-- Spec-side clamp to `[0, 1]` ("clamped to [0, 1]" in the spec); the source
writes `Math.min(1, Math.max(0, x))`, compared against this in C3. -/
def clampSpec (x : ℚ) : ℚ := max 0 (min 1 x)

/-- A configuration whose relative duration, when present, is non-negative. -/
def goodTimer (o : Options) : Prop :=
  ∀ d, o.timer.duration = some d → 0 ≤ d

/-- A partial options object whose relative duration, when supplied as a
number, is non-negative. -/
def goodPartial (p : PartialOptions) : Prop :=
  ∀ pt, p.timer = some pt → ∀ d, pt.duration = some (some d) → 0 ≤ d

/-- An operation whose supplied options (if any) have a non-negative
relative duration. -/
def goodOp : Op → Prop
  | .updateOp p _ => goodPartial p
  | _ => True

/-- A host environment fixture for concrete runs: every date facility
returns the epoch and the current year is 2025. -/
def env0 : Env :=
  { parseDate := fun _ => 0,
    dateLocal := fun _ _ _ _ _ _ => 0,
    dateUTC := fun _ _ _ _ _ _ => 0,
    currentYear := 2025 }

/-- A baseline merged options fixture (the defaults of `env0`). -/
def baseOpts : Options :=
  { year := 2025, month := 1, day := 1, hours := 0, minutes := 0, seconds := 0,
    enableUTC := false, targetTime := none,
    timer := { duration := none, disableOnPause := true },
    zeroPad := true, onCb := { update := false, finish := false } }

/-- Fixture: an absolute-target instance (no relative duration) with an
`on.finish` callback configured, target at 5000 ms. -/
def finishState : CState :=
  { intervalId := some 1000, isPaused := false, pauseStart := 0,
    targetTimestamp := 5000, startTimestamp := 0, totalDuration := 5000,
    options := { baseOpts with onCb := { update := false, finish := true } } }

/-- Fixture: a running relative 60 s timer with `disableOnPause = true`. -/
def relState : CState :=
  { intervalId := some 1000, isPaused := false, pauseStart := 0,
    targetTimestamp := 60000, startTimestamp := 0, totalDuration := 60000,
    options := { baseOpts with timer := { duration := some 60000, disableOnPause := true } } }

/-- Fixture: `relState` paused at 1000 ms. -/
def pausedRelState : CState :=
  { relState with isPaused := true, pauseStart := 1000 }

/-- Fixture: a relative 60 s timer with an `on.update` callback. -/
def updState : CState :=
  { relState with options :=
      { relState.options with onCb := { update := true, finish := false } } }

/-- Fixture: an absolute-target instance configured via the legacy date
string. -/
def strState : CState :=
  { finishState with options := { baseOpts with targetTime := some "2030-01-01" } }

/-- Fixture: an absolute-target instance configured via granular fields
(month 5, local time). -/
def granState : CState :=
  { finishState with options := { baseOpts with month := 5, day := 2 } }

/-- Fixture: a paused absolute-target instance with an `on.update` callback,
used to instantiate hypotheses about re-starting. -/
def wState : CState :=
  { finishState with
    isPaused := true,
    options := { baseOpts with onCb := { update := true, finish := false } } }

/-- Fixture: a partial options object carrying a negative relative
duration (`timer: { duration: -1000 }`). -/
def negDurationPartial : PartialOptions :=
  { timer := some { duration := some (some (-1000)) } }

/-- Fixture: a partial options object configuring both callbacks and a
relative duration, used against the zero-sinks constructor path. -/
def cbPartial : PartialOptions :=
  { timer := some { duration := some (some 60000) },
    onCb := some { update := some true, finish := some true } }

/-- A tick leaves the state unchanged or applies `stop` to it. -/
theorem tick_fst_eq (s : CState) (now : Int) :
    (tick s now).1 = s ∨ (tick s now).1 = stop s := by
  rw [tick]
  split
  · exact Or.inl rfl
  · dsimp only
    split
    · exact Or.inr rfl
    · exact Or.inl rfl

/-- A tick never writes the timestamps, the duration, the options or the
pause start. -/
theorem tick_preserves (s : CState) (now : Int) :
    (tick s now).1.targetTimestamp = s.targetTimestamp ∧
    (tick s now).1.startTimestamp = s.startTimestamp ∧
    (tick s now).1.totalDuration = s.totalDuration ∧
    (tick s now).1.options = s.options ∧
    (tick s now).1.pauseStart = s.pauseStart := by
  rcases tick_fst_eq s now with h | h <;> rw [h] <;> simp [stop]

/-- The state after `start` is the tick result with the scheduler
registered. -/
theorem start_fst (s : CState) (now : Int) :
    (start s now).1 =
      { (tick { s with isPaused := false } now).1 with intervalId := some 1000 } := rfl

/-- The events of `start` are those of its synchronous tick. -/
theorem start_snd (s : CState) (now : Int) :
    (start s now).2 = (tick { s with isPaused := false } now).2 := rfl

/-- `start` never writes the timestamps, the duration, the options or the
pause start. -/
theorem start_preserves (s : CState) (now : Int) :
    (start s now).1.targetTimestamp = s.targetTimestamp ∧
    (start s now).1.startTimestamp = s.startTimestamp ∧
    (start s now).1.totalDuration = s.totalDuration ∧
    (start s now).1.options = s.options ∧
    (start s now).1.pauseStart = s.pauseStart := by
  rw [start_fst]
  have h := tick_preserves { s with isPaused := false } now
  simpa using h

/-- On a paused relative `disableOnPause` timer, `resume` shifts both
timestamps forward by the elapsed pause duration. -/
theorem resume_shift (s : CState) (now : Int) (hp : s.isPaused = true)
    (hd : durationTruthy s.options.timer.duration = true)
    (hf : s.options.timer.disableOnPause = true) :
    (resume s now).1.targetTimestamp = s.targetTimestamp + (now - s.pauseStart) ∧
    (resume s now).1.startTimestamp = s.startTimestamp + (now - s.pauseStart) := by
  rw [resume]
  simp only [hp, hd, hf, Bool.true_and, if_pos, Bool.and_self, if_true]
  norm_num
  constructor
  · exact (start_preserves _ now).1
  · exact (start_preserves _ now).2.1

/-- `resume` never writes `totalDuration` or the options. -/
theorem resume_preserves (s : CState) (now : Int) :
    (resume s now).1.totalDuration = s.totalDuration ∧
    (resume s now).1.options = s.options := by
  rw [resume]
  split
  · exact ⟨rfl, rfl⟩
  · dsimp only
    split
    · have h := start_preserves
        { s with targetTimestamp := s.targetTimestamp + (now - s.pauseStart),
                 startTimestamp := s.startTimestamp + (now - s.pauseStart) } now
      exact ⟨h.2.2.1, h.2.2.2.1⟩
    · exact ⟨(start_preserves s now).2.2.1, (start_preserves s now).2.2.2.1⟩

/-- `calculateTarget` keeps the options unchanged. -/
theorem calculateTarget_options (env : Env) (s : CState) (now : Int) :
    (calculateTarget env s now).options = s.options := by
  rw [calculateTarget]
  split
  · rfl
  · rfl

/-- Relative branch of `calculateTarget`: both timestamps from the
duration. -/
theorem calculateTarget_rel (env : Env) (s : CState) (now : Int)
    (h : durationTruthy s.options.timer.duration = true) :
    (calculateTarget env s now).totalDuration = s.options.timer.duration.getD 0 ∧
    (calculateTarget env s now).targetTimestamp = now + s.options.timer.duration.getD 0 := by
  constructor <;> simp [calculateTarget, h]

/-- Absolute branch of `calculateTarget`: `totalDuration` is the clamped
distance to the target. -/
theorem calculateTarget_abs (env : Env) (s : CState) (now : Int)
    (h : durationTruthy s.options.timer.duration = false) :
    (calculateTarget env s now).totalDuration =
      max 0 ((calculateTarget env s now).targetTimestamp - now) := by
  simp [calculateTarget, h]

/-- An unpaused tick at or past the target stops the engine and emits the
configured callbacks. -/
theorem tick_complete (s : CState) (now : Int) (hp : s.isPaused = false)
    (htl : timeLeftOf s now ≤ 0) :
    tick s now =
      (stop s,
        (if s.options.onCb.update then
          [Event.update (progressObject s now) (timeLeftOf s now)
            (decompose (timeLeftOf s now))] else []) ++
        (if s.options.onCb.finish then [Event.finish] else [])) := by
  rw [tick, hp]
  simp only [Bool.false_eq_true, if_false]
  rw [if_pos htl]

/-- Claim C2: for every non-negative `timeLeft`, the tick decomposition into
days/hours/minutes/seconds over fixed-length units satisfies
`days*86400000 + hours*3600000 + minutes*60000 + seconds*1000 <= timeLeft <
days*86400000 + hours*3600000 + minutes*60000 + (seconds+1)*1000`, with
`0 <= hours < 24`, `0 <= minutes < 60`, `0 <= seconds < 60`, and `days`
non-negative and unbounded above. -/
theorem decompose_bounds (timeLeft : Int) (h : 0 ≤ timeLeft) :
    0 ≤ (decompose timeLeft).days ∧
    0 ≤ (decompose timeLeft).hours ∧ (decompose timeLeft).hours < 24 ∧
    0 ≤ (decompose timeLeft).minutes ∧ (decompose timeLeft).minutes < 60 ∧
    0 ≤ (decompose timeLeft).seconds ∧ (decompose timeLeft).seconds < 60 ∧
    (decompose timeLeft).days * 86400000 + (decompose timeLeft).hours * 3600000 +
      (decompose timeLeft).minutes * 60000 + (decompose timeLeft).seconds * 1000 ≤ timeLeft ∧
    timeLeft < (decompose timeLeft).days * 86400000 + (decompose timeLeft).hours * 3600000 +
      (decompose timeLeft).minutes * 60000 + ((decompose timeLeft).seconds + 1) * 1000 := by
  simp only [decompose, dayMs, hourMs, minuteMs]
  norm_num
  omega

/-- Witness for C2 at `timeLeft` = one day, one hour, one minute, one second
and 500 ms. -/
theorem decompose_bounds_witness :
    0 ≤ (90061500 : Int) ∧
    (0 ≤ (decompose 90061500).days ∧
     0 ≤ (decompose 90061500).hours ∧ (decompose 90061500).hours < 24 ∧
     0 ≤ (decompose 90061500).minutes ∧ (decompose 90061500).minutes < 60 ∧
     0 ≤ (decompose 90061500).seconds ∧ (decompose 90061500).seconds < 60 ∧
     (decompose 90061500).days * 86400000 + (decompose 90061500).hours * 3600000 +
       (decompose 90061500).minutes * 60000 + (decompose 90061500).seconds * 1000 ≤ 90061500 ∧
     (90061500 : Int) < (decompose 90061500).days * 86400000 + (decompose 90061500).hours * 3600000 +
       (decompose 90061500).minutes * 60000 + ((decompose 90061500).seconds + 1) * 1000) :=
  ⟨by decide, decompose_bounds 90061500 (by decide)⟩

/-- The source's `Math.min(1, Math.max(0, x))` equals the spec's clamp to
`[0, 1]`. -/
theorem clampSpec_eq_min_max (x : ℚ) : clampSpec x = min 1 (max 0 x) := by
  rw [clampSpec, max_min_distrib_left]
  norm_num

/-- Claim C3: on every processed tick, the `progressObject` handed to
`on.update` has `total` equal to `(now - startTimestamp) / totalDuration`
clamped to `[0, 1]` when `totalDuration > 0`, and equal to `1` when
`totalDuration <= 0`. -/
theorem tick_globalProgress (s : CState) (now : Int)
    (hp : s.isPaused = false) (hu : s.options.onCb.update = true) :
    Event.update (progressObject s now) (timeLeftOf s now) (decompose (timeLeftOf s now))
      ∈ (tick s now).2 ∧
    (progressObject s now).total = globalProgress s now ∧
    (0 < s.totalDuration →
      globalProgress s now =
        clampSpec (((now - s.startTimestamp : Int) : ℚ) / ((s.totalDuration : Int) : ℚ))) ∧
    (s.totalDuration ≤ 0 → globalProgress s now = 1) := by
  refine ⟨?_, rfl, ?_, ?_⟩
  · rw [tick]
    simp only [hp, hu, if_false, Bool.false_eq_true, if_true]
    split <;> simp
  · intro hpos
    rw [globalProgress, if_pos hpos, clampSpec_eq_min_max]
  · intro hle
    rw [globalProgress, if_neg (by omega)]

/-- Witness for C3 on a running relative 60 s timer with `on.update`
configured, 30 s into its window. -/
theorem tick_globalProgress_witness :
    (Event.update (progressObject updState 30000) (timeLeftOf updState 30000)
        (decompose (timeLeftOf updState 30000)) ∈ (tick updState 30000).2 ∧
     (progressObject updState 30000).total = globalProgress updState 30000 ∧
     (0 < updState.totalDuration →
       globalProgress updState 30000 =
         clampSpec (((30000 - updState.startTimestamp : Int) : ℚ) /
           ((updState.totalDuration : Int) : ℚ))) ∧
     (updState.totalDuration ≤ 0 → globalProgress updState 30000 = 1)) ∧
    0 < updState.totalDuration :=
  ⟨tick_globalProgress updState 30000 rfl rfl, by decide⟩

/-- Claim C1: `calculateTarget` applies exactly one rule, in priority order:
a truthy (non-null, non-zero) relative duration gives
`targetTimestamp = now + duration` and `totalDuration = duration`
independently of the legacy string and granular fields; otherwise a truthy
legacy date string is parsed by the host; otherwise the target is built from
the granular fields with the month converted from 1-indexed to 0-indexed,
through the UTC facility exactly when the UTC flag is set, and
`totalDuration = max 0 (targetTimestamp - now)` in the absolute cases. -/
theorem calculateTarget_priority (env : Env) (s : CState) (now : Int) :
    (∀ d, s.options.timer.duration = some d → d ≠ 0 →
      (calculateTarget env s now).targetTimestamp = now + d ∧
      (calculateTarget env s now).totalDuration = d ∧
      ∀ o2 : Options, o2.timer.duration = some d →
        (calculateTarget env { s with options := o2 } now).targetTimestamp = now + d ∧
        (calculateTarget env { s with options := o2 } now).totalDuration = d) ∧
    (durationTruthy s.options.timer.duration = false →
      ∀ str, s.options.targetTime = some str → str ≠ "" →
        (calculateTarget env s now).targetTimestamp = env.parseDate str ∧
        (calculateTarget env s now).totalDuration = max 0 (env.parseDate str - now)) ∧
    (durationTruthy s.options.timer.duration = false →
      targetTimeTruthy s.options.targetTime = false →
      s.options.month ≠ 0 →
      (s.options.enableUTC = true →
        (calculateTarget env s now).targetTimestamp =
          env.dateUTC s.options.year (s.options.month - 1) (jsOr s.options.day 1)
            (jsOr s.options.hours 0) (jsOr s.options.minutes 0) (jsOr s.options.seconds 0)) ∧
      (s.options.enableUTC = false →
        (calculateTarget env s now).targetTimestamp =
          env.dateLocal s.options.year (s.options.month - 1) (jsOr s.options.day 1)
            (jsOr s.options.hours 0) (jsOr s.options.minutes 0) (jsOr s.options.seconds 0)) ∧
      (calculateTarget env s now).totalDuration =
        max 0 ((calculateTarget env s now).targetTimestamp - now)) := by
  refine ⟨?_, ?_, ?_⟩
  · intro d hd hne
    refine ⟨?_, ?_, ?_⟩
    · simp [calculateTarget, durationTruthy, hd, hne]
    · simp [calculateTarget, durationTruthy, hd, hne]
    · intro o2 ho2
      constructor
      · simp [calculateTarget, durationTruthy, ho2, hne]
      · simp [calculateTarget, durationTruthy, ho2, hne]
  · intro hfalse str hstr hne
    constructor
    · simp [calculateTarget, hfalse, hstr, targetTimeTruthy, hne]
    · simp [calculateTarget, hfalse, hstr, targetTimeTruthy, hne]
  · intro hfalse htt hm
    have hjs : jsOr s.options.month 1 = s.options.month := by
      simp [jsOr, hm]
    refine ⟨?_, ?_, ?_⟩
    · intro hutc
      simp [calculateTarget, hfalse, htt, hutc, hjs]
    · intro hutc
      simp [calculateTarget, hfalse, htt, hutc, hjs]
    · simp [calculateTarget, hfalse, htt]

/-- Witness for C1 at each of the three rules: a truthy 60 s relative
duration, a truthy legacy date string, and granular fields with month 5
under the local-time facility. -/
theorem calculateTarget_priority_witness :
    ((calculateTarget env0 relState 5).targetTimestamp = 5 + 60000 ∧
     (calculateTarget env0 relState 5).totalDuration = 60000) ∧
    ((calculateTarget env0 strState 7).targetTimestamp = env0.parseDate "2030-01-01" ∧
     (calculateTarget env0 strState 7).totalDuration =
       max 0 (env0.parseDate "2030-01-01" - 7)) ∧
    (calculateTarget env0 granState 9).targetTimestamp =
      env0.dateLocal granState.options.year (granState.options.month - 1)
        (jsOr granState.options.day 1) (jsOr granState.options.hours 0)
        (jsOr granState.options.minutes 0) (jsOr granState.options.seconds 0) :=
  ⟨⟨((calculateTarget_priority env0 relState 5).1 60000 rfl (by decide)).1,
    ((calculateTarget_priority env0 relState 5).1 60000 rfl (by decide)).2.1⟩,
   (calculateTarget_priority env0 strState 7).2.1 rfl "2030-01-01" rfl (by decide),
   ((calculateTarget_priority env0 granState 9).2.2 rfl rfl (by decide)).2.1 rfl⟩

/-- Claim C4: for a relative-duration target with `disableOnPause = true`,
pausing at `t` and resuming at `t + P` shifts both `targetTimestamp` and
`startTimestamp` forward by `P`, so `timeLeft` right after the resume equals
`timeLeft` right before the pause and the elapsed-within-window value is
preserved. -/
theorem pause_resume_roundtrip (s : CState) (t P : Int)
    (hd : durationTruthy s.options.timer.duration = true)
    (hf : s.options.timer.disableOnPause = true) :
    (resume (pause s t) (t + P)).1.targetTimestamp = s.targetTimestamp + P ∧
    (resume (pause s t) (t + P)).1.startTimestamp = s.startTimestamp + P ∧
    timeLeftOf (resume (pause s t) (t + P)).1 (t + P) = timeLeftOf s t ∧
    (t + P) - (resume (pause s t) (t + P)).1.startTimestamp = t - s.startTimestamp := by
  have hsh := resume_shift (pause s t) (t + P) rfl hd hf
  have h1 : (resume (pause s t) (t + P)).1.targetTimestamp = s.targetTimestamp + P := by
    rw [hsh.1]; show s.targetTimestamp + (t + P - t) = _; ring
  have h2 : (resume (pause s t) (t + P)).1.startTimestamp = s.startTimestamp + P := by
    rw [hsh.2]; show s.startTimestamp + (t + P - t) = _; ring
  refine ⟨h1, h2, ?_, ?_⟩
  · rw [timeLeftOf, timeLeftOf, h1]
    congr 1
    ring
  · rw [h2]; ring

/-- Witness for C4 on a running relative 60 s timer paused at 10000 ms and
resumed 7000 ms later. -/
theorem pause_resume_roundtrip_witness :
    (resume (pause relState 10000) (10000 + 7000)).1.targetTimestamp =
      relState.targetTimestamp + 7000 ∧
    (resume (pause relState 10000) (10000 + 7000)).1.startTimestamp =
      relState.startTimestamp + 7000 ∧
    timeLeftOf (resume (pause relState 10000) (10000 + 7000)).1 (10000 + 7000) =
      timeLeftOf relState 10000 ∧
    (10000 + 7000) - (resume (pause relState 10000) (10000 + 7000)).1.startTimestamp =
      10000 - relState.startTimestamp :=
  pause_resume_roundtrip relState 10000 7000 (by decide) rfl

/-- Claim C5, amended: a processed tick that observes `timeLeft <= 0`
releases the scheduler registration, marks the engine paused, fires
`on.finish` when configured, and every later tick on the resulting state is
a no-op producing no events — so `on.finish` cannot fire again until an
operation that re-starts ticking (`restart()`, `update()`, or also
`resume()`) re-arms the instance. -/
theorem completion_terminal (s : CState) (now : Int)
    (hp : s.isPaused = false) (ht : s.targetTimestamp ≤ now) :
    (tick s now).1.intervalId = none ∧
    (tick s now).1.isPaused = true ∧
    (s.options.onCb.finish = true → Event.finish ∈ (tick s now).2) ∧
    ∀ n2 : Int, tick (tick s now).1 n2 = ((tick s now).1, []) := by
  have htl : timeLeftOf s now ≤ 0 := by
    rw [timeLeftOf]; omega
  have hstep := tick_complete s now hp htl
  refine ⟨by rw [hstep]; rfl, by rw [hstep]; rfl, ?_, ?_⟩
  · intro hf
    rw [hstep, hf]
    simp
  · intro n2
    rw [hstep]
    show tick (stop s) n2 = _
    rw [tick]
    simp [stop]

/-- Witness for C5 (amended) on an absolute-target instance with
`on.finish` configured, ticked exactly at its target instant. -/
theorem completion_terminal_witness :
    (tick finishState 5000).1.intervalId = none ∧
    (tick finishState 5000).1.isPaused = true ∧
    Event.finish ∈ (tick finishState 5000).2 ∧
    tick (tick finishState 5000).1 6000 = ((tick finishState 5000).1, []) :=
  ⟨(completion_terminal finishState 5000 rfl (by decide)).1,
   (completion_terminal finishState 5000 rfl (by decide)).2.1,
   (completion_terminal finishState 5000 rfl (by decide)).2.2.1 rfl,
   (completion_terminal finishState 5000 rfl (by decide)).2.2.2 6000⟩

/-- Counterexample to C5 as stated: on a completed absolute-target instance
(whose completing tick at 5000 ms already fired `on.finish` once), a plain
`resume()` at 6000 ms — neither `restart()` nor `update()` — processes a
fresh tick and fires `on.finish` a second time, so `on.finish` does not fire
exactly once per target lifetime under restart/update re-arming alone. -/
theorem completion_not_terminal_under_resume :
    (tick finishState 5000).2 = [Event.finish] ∧
    (resume (tick finishState 5000).1 6000).2 = [Event.finish] := by
  constructor
  · rfl
  · rfl

/-- Claim C8, amended: calling `pause()` twice at the same instant has the
same effect as calling it once, and `resume()` when not paused is a no-op;
however a second `pause()` at a later instant overwrites
`pauseStartTimestamp` (see the counterexample), so idempotence-in-effect
holds only when no time elapses between the two calls. -/
theorem pause_idem_resume_noop (s : CState) (t : Int) :
    pause (pause s t) t = pause s t ∧
    (s.isPaused = false → resume s t = (s, [])) := by
  constructor
  · rfl
  · intro h
    rw [resume, if_pos h]

/-- Witness for C8 (amended) on the running relative timer fixture. -/
theorem pause_idem_resume_noop_witness :
    pause (pause relState 5) 5 = pause relState 5 ∧
    resume relState 5 = (relState, []) :=
  ⟨(pause_idem_resume_noop relState 5).1, (pause_idem_resume_noop relState 5).2 rfl⟩

/-- Counterexample to C8 as stated: on a running relative
`disableOnPause` timer, `pause()` at 1000 ms followed by `pause()` again at
2000 ms, then `resume()` at 3000 ms, restores a `timeLeft` of 58000 ms,
while a single `pause()` at 1000 ms resumed at 3000 ms restores 59000 ms —
the double pause does not produce the same subsequent observable behavior
as the single one. -/
theorem pause_not_idempotent :
    timeLeftOf (resume (pause (pause relState 1000) 2000) 3000).1 3000 = 58000 ∧
    timeLeftOf (resume (pause relState 1000) 3000).1 3000 = 59000 := by
  constructor
  · rfl
  · rfl

/-- Claim C9, amended: `targetTimestamp` and `totalDuration` are set
together by `calculateTarget` (run at construction, restart and
reconfiguration), and `tick`, `pause`, `stop` and `start` write neither;
however `resume()` on a relative-duration `disableOnPause` timer shifts
`targetTimestamp` forward by the pause duration without writing
`totalDuration` (see the counterexample), and writes neither field when that
condition does not hold. -/
theorem timestamps_set_by_calculateTarget (env : Env) (s : CState) (now : Int) :
    ((tick s now).1.targetTimestamp = s.targetTimestamp ∧
     (tick s now).1.totalDuration = s.totalDuration) ∧
    ((pause s now).targetTimestamp = s.targetTimestamp ∧
     (pause s now).totalDuration = s.totalDuration) ∧
    ((stop s).targetTimestamp = s.targetTimestamp ∧
     (stop s).totalDuration = s.totalDuration) ∧
    ((start s now).1.targetTimestamp = s.targetTimestamp ∧
     (start s now).1.totalDuration = s.totalDuration) ∧
    (resume s now).1.totalDuration = s.totalDuration ∧
    ((durationTruthy s.options.timer.duration && s.options.timer.disableOnPause) = false →
      (resume s now).1.targetTimestamp = s.targetTimestamp) ∧
    (calculateTarget env s now).totalDuration =
      (if durationTruthy s.options.timer.duration then s.options.timer.duration.getD 0
       else max 0 ((calculateTarget env s now).targetTimestamp - now)) := by
  refine ⟨⟨(tick_preserves s now).1, (tick_preserves s now).2.2.1⟩,
    ⟨rfl, rfl⟩, ⟨rfl, rfl⟩,
    ⟨(start_preserves s now).1, (start_preserves s now).2.2.1⟩,
    (resume_preserves s now).1, ?_, ?_⟩
  · intro hcond
    rw [resume]
    split
    · rfl
    · rw [if_neg (by rw [hcond]; exact Bool.false_ne_true)]
      exact (start_preserves s now).1
  · cases hdt : durationTruthy s.options.timer.duration
    · rw [if_neg Bool.false_ne_true]
      exact calculateTarget_abs env s now hdt
    · rw [if_pos rfl]
      exact (calculateTarget_rel env s now hdt).1

/-- Witness for C9 (amended) on an absolute-target instance, where the
resume-shift condition is false. -/
theorem timestamps_set_by_calculateTarget_witness :
    ((tick finishState 100).1.targetTimestamp = finishState.targetTimestamp ∧
     (tick finishState 100).1.totalDuration = finishState.totalDuration) ∧
    ((pause finishState 100).targetTimestamp = finishState.targetTimestamp ∧
     (pause finishState 100).totalDuration = finishState.totalDuration) ∧
    ((stop finishState).targetTimestamp = finishState.targetTimestamp ∧
     (stop finishState).totalDuration = finishState.totalDuration) ∧
    ((start finishState 100).1.targetTimestamp = finishState.targetTimestamp ∧
     (start finishState 100).1.totalDuration = finishState.totalDuration) ∧
    (resume finishState 100).1.totalDuration = finishState.totalDuration ∧
    (resume finishState 100).1.targetTimestamp = finishState.targetTimestamp ∧
    (calculateTarget env0 finishState 100).totalDuration =
      max 0 ((calculateTarget env0 finishState 100).targetTimestamp - 100) := by
  have h := timestamps_set_by_calculateTarget env0 finishState 100
  exact ⟨h.1, h.2.1, h.2.2.1, h.2.2.2.1, h.2.2.2.2.1,
    h.2.2.2.2.2.1 rfl, h.2.2.2.2.2.2⟩

/-- Counterexample to C9 as stated: `resume()` at 3000 ms on the paused
relative timer modifies `targetTimestamp` (60000 becomes 62000) without
writing `totalDuration` — an operation other than target (re)computation
writes `targetTimestamp`, and the two fields are not written together
there. -/
theorem resume_writes_targetTimestamp :
    (resume pausedRelState 3000).1.targetTimestamp = 62000 ∧
    pausedRelState.targetTimestamp = 60000 ∧
    (resume pausedRelState 3000).1.totalDuration = pausedRelState.totalDuration := by
  refine ⟨rfl, rfl, rfl⟩

/-- Merging a good partial over good options yields good options. -/
theorem goodTimer_merge (base : Options) (p : PartialOptions)
    (hb : goodTimer base) (hp : goodPartial p) :
    goodTimer (mergeOptions base p) := by
  intro d hd
  cases hpt : p.timer with
  | none =>
    rw [mergeOptions] at hd
    simp only [mergeTimer, hpt, Option.getD_none] at hd
    exact hb d (by simpa using hd)
  | some pt =>
    cases hdd : pt.duration with
    | none =>
      rw [mergeOptions] at hd
      simp only [mergeTimer, hpt, Option.getD_some, hdd, Option.getD_none] at hd
      exact hb d hd
    | some dd =>
      rw [mergeOptions] at hd
      simp only [mergeTimer, hpt, Option.getD_some, hdd] at hd
      exact hp pt hpt d (by rw [hdd, hd])

/-- With a good configuration, `calculateTarget` produces a non-negative
`totalDuration`. -/
theorem calculateTarget_nonneg (env : Env) (s : CState) (now : Int)
    (hg : goodTimer s.options) :
    0 ≤ (calculateTarget env s now).totalDuration := by
  cases hdt : durationTruthy s.options.timer.duration
  · rw [calculateTarget_abs env s now hdt]
    exact le_max_left 0 _
  · rw [(calculateTarget_rel env s now hdt).1]
    cases hd : s.options.timer.duration with
    | none => rw [hd] at hdt; exact absurd hdt (by decide)
    | some d => simpa [hd] using hg d hd

/-- Every good operation preserves non-negativity of `totalDuration`
together with goodness of the options. -/
theorem applyOp_inv (env : Env) (s : CState) (op : Op)
    (h : 0 ≤ s.totalDuration ∧ goodTimer s.options) (hop : goodOp op) :
    0 ≤ (applyOp env s op).totalDuration ∧ goodTimer (applyOp env s op).options := by
  cases op with
  | tickOp n =>
    have ht := tick_preserves s n
    rw [applyOp, ht.2.2.1, ht.2.2.2.1]
    exact h
  | pauseOp n => exact h
  | resumeOp n =>
    have hr := resume_preserves s n
    rw [applyOp, hr.1, hr.2]
    exact h
  | stopOp => exact h
  | restartOp n =>
    have hg : goodTimer (stop s).options := h.2
    have hs := start_preserves (calculateTarget env (stop s) n) n
    rw [applyOp, restart, hs.2.2.1, hs.2.2.2.1, calculateTarget_options]
    exact ⟨calculateTarget_nonneg env (stop s) n hg, hg⟩
  | updateOp p n =>
    have hg : goodTimer (mergeOptions s.options p) :=
      goodTimer_merge s.options p h.2 hop
    have hs := start_preserves
      (calculateTarget env (stop { s with options := mergeOptions s.options p }) n) n
    rw [applyOp, update, restart, hs.2.2.1, hs.2.2.2.1, calculateTarget_options]
    exact ⟨calculateTarget_nonneg env _ n hg, hg⟩

/-- A run of good operations preserves the `totalDuration` invariant. -/
theorem run_inv (env : Env) (ops : List Op) :
    ∀ s : CState, 0 ≤ s.totalDuration ∧ goodTimer s.options →
      (∀ op ∈ ops, goodOp op) →
      0 ≤ (run env s ops).totalDuration ∧ goodTimer (run env s ops).options := by
  induction ops with
  | nil => intro s h _; exact h
  | cons op rest ih =>
    intro s h hops
    rw [run]
    exact ih (applyOp env s op)
      (applyOp_inv env s op h (hops op (List.mem_cons_self op rest)))
      (fun o ho => hops o (List.mem_cons_of_mem op ho))

/-- The default configuration has a good (null) duration. -/
theorem goodTimer_defaults (env : Env) : goodTimer (defaults env) := by
  intro d hd
  cases hd

/-- Claim C6, amended: for every configuration whose relative duration, when
supplied as a number (at construction or in any reconfiguration), is
non-negative, the runtime-state field `totalDuration` is `>= 0` after
construction and stays `>= 0` under every sequence of operations.  (As
stated the claim fails for negative configured durations — see the
counterexample.) -/
theorem totalDuration_nonneg (env : Env) (count : Nat) (p : PartialOptions)
    (now : Int) (ops : List Op) (r : CState × List Event)
    (hp : goodPartial p) (hops : ∀ op ∈ ops, goodOp op)
    (hr : (construct env count p now).inst = some r) :
    0 ≤ r.1.totalDuration ∧ 0 ≤ (run env r.1 ops).totalDuration := by
  rw [construct] at hr
  split at hr
  · cases hr
  · simp only [Option.some.injEq] at hr
    have hg : goodTimer (mergeOptions (defaults env) p) :=
      goodTimer_merge (defaults env) p (goodTimer_defaults env) hp
    have hbase := calculateTarget_nonneg env
      { intervalId := none, isPaused := false, pauseStart := 0,
        targetTimestamp := 0, startTimestamp := 0, totalDuration := 0,
        options := mergeOptions (defaults env) p } now hg
    have hsp := start_preserves
      (calculateTarget env
        { intervalId := none, isPaused := false, pauseStart := 0,
          targetTimestamp := 0, startTimestamp := 0, totalDuration := 0,
          options := mergeOptions (defaults env) p } now) now
    have h0 : 0 ≤ r.1.totalDuration ∧ goodTimer r.1.options := by
      rw [← hr]
      rw [hsp.2.2.1, hsp.2.2.2.1, calculateTarget_options]
      exact ⟨hbase, hg⟩
    exact ⟨h0.1, (run_inv env ops r.1 h0 hops).1⟩

/-- Witness for C6 (amended): a default-configured instance put through a
tick, a pause, a resume and a restart keeps `totalDuration` at `>= 0`. -/
theorem totalDuration_nonneg_witness :
    (0 ≤ ((start (calculateTarget env0
        { intervalId := none, isPaused := false, pauseStart := 0,
          targetTimestamp := 0, startTimestamp := 0, totalDuration := 0,
          options := mergeOptions (defaults env0) {} } 0) 0).1).totalDuration ∧
     0 ≤ (run env0 (start (calculateTarget env0
        { intervalId := none, isPaused := false, pauseStart := 0,
          targetTimestamp := 0, startTimestamp := 0, totalDuration := 0,
          options := mergeOptions (defaults env0) {} } 0) 0).1
        [Op.tickOp 5, Op.pauseOp 6, Op.resumeOp 7, Op.restartOp 8]).totalDuration) :=
  totalDuration_nonneg env0 1 {} 0
    [Op.tickOp 5, Op.pauseOp 6, Op.resumeOp 7, Op.restartOp 8] _
    (fun pt h => nomatch h)
    (by intro op h
        fin_cases h <;> trivial)
    rfl

/-- Counterexample to C6 as stated: constructing with
`timer: { duration: -1000 }` (truthy in the source's check) sets
`totalDuration` to `-1000 < 0` already at construction. -/
theorem totalDuration_negative :
    ((construct env0 1 negDurationPartial 0).inst.map fun r => r.1.totalDuration) =
      some (-1000) ∧ (-1000 : Int) < 0 := by
  constructor
  · rfl
  · decide

/-- Claim C7, amended: when zero render sinks resolve, the engine reports
the error non-fatally and the constructor returns early — the resulting
instance is fully inert: no options are merged, no target is computed, the
scheduler is never started and no callback can ever fire.  (As stated the
claim fails: the instance does not compute its target or fire callbacks —
see the counterexample.) -/
theorem construct_zero_sinks (env : Env) (p : PartialOptions) (now : Int) :
    (construct env 0 p now).errorReported = true ∧
    (construct env 0 p now).inst = none := by
  constructor
  · rfl
  · rfl

/-- Counterexample to C7 as stated: constructing over zero sinks with both
callbacks configured and a 60 s relative duration yields `inst = none` —
the constructor returned before `calculateTarget` and `start`, so no target
is computed and the configured `on.update`/`on.finish` can never fire,
contradicting "still computes its target and fires its configured
callbacks". -/
theorem construct_zero_sinks_inert :
    (construct env0 0 cbPartial 0).inst = none ∧
    (construct env0 0 cbPartial 0).errorReported = true := by
  constructor
  · rfl
  · rfl

/-- Claim C10: every `start()` runs one tick synchronously and only then
(re)registers the 1000 ms repeating scheduler, so `on.update` (when
configured) fires immediately at the (re)start instant; `restart()` (hence
`update()`) and `resume()` (when no pause-shift applies) reduce to
`start()`, and construction over at least one sink starts the same way. -/
theorem start_ticks_synchronously (s : CState) (now : Int) :
    (start s now).2 = (tick { s with isPaused := false } now).2 ∧
    (start s now).1.intervalId = some 1000 ∧
    (s.options.onCb.update = true →
      Event.update (progressObject s now) (timeLeftOf s now)
        (decompose (timeLeftOf s now)) ∈ (start s now).2) ∧
    (∀ env : Env, restart env s now = start (calculateTarget env (stop s) now) now) ∧
    (s.isPaused = true →
      (durationTruthy s.options.timer.duration && s.options.timer.disableOnPause) = false →
      resume s now = start s now) ∧
    (∀ env : Env, ∀ p : PartialOptions, ∀ count : Nat, count ≠ 0 →
      ∃ s1 : CState, (construct env count p now).inst = some (start s1 now)) := by
  refine ⟨rfl, rfl, ?_, fun _ => rfl, ?_, ?_⟩
  · intro hu
    rw [start_snd, tick]
    simp only [if_false, Bool.false_eq_true, hu, if_true]
    split <;> simp <;> exact ⟨rfl, rfl, rfl⟩
  · intro hp hcond
    rw [resume]
    rw [if_neg (by rw [hp]; exact fun h => nomatch h)]
    rw [if_neg (by rw [hcond]; exact Bool.false_ne_true)]
  · intro env p count hc
    rw [construct, if_neg hc]
    exact ⟨_, rfl⟩

/-- Witness for C10 on a paused absolute-target instance with `on.update`
configured (so the synchronous tick fires an immediate update). -/
theorem start_ticks_synchronously_witness :
    (start wState 100).2 = (tick { wState with isPaused := false } 100).2 ∧
    (start wState 100).1.intervalId = some 1000 ∧
    Event.update (progressObject wState 100) (timeLeftOf wState 100)
      (decompose (timeLeftOf wState 100)) ∈ (start wState 100).2 ∧
    restart env0 wState 100 = start (calculateTarget env0 (stop wState) 100) 100 ∧
    resume wState 100 = start wState 100 ∧
    ∃ s1 : CState, (construct env0 1 {} 100).inst = some (start s1 100) :=
  ⟨(start_ticks_synchronously wState 100).1,
   (start_ticks_synchronously wState 100).2.1,
   (start_ticks_synchronously wState 100).2.2.1 rfl,
   (start_ticks_synchronously wState 100).2.2.2.1 env0,
   (start_ticks_synchronously wState 100).2.2.2.2.1 rfl rfl,
   (start_ticks_synchronously wState 100).2.2.2.2.2 env0 {} 1 (by decide)⟩

end RobustCountdown
